import Mathlib

/-!
# Verification of the object-localization core of `use-surf-detector.ts`

Shallow embedding of the per-frame localization pipeline in
`src/app/pages/object-detector/model/use-surf-detector.ts`:
the match selector, the cross-checked Hamming matcher, the homography
corner transform, the per-tick resource lifecycle (OpenCV.js emscripten
objects that must be `delete`d), and the `requestAnimationFrame` scheduler
with its `stop` control.

Machine reals are modelled by `ℚ` (all quantities the verified claims
touch are exactly representable); Hamming distances by `ℕ`.
-/

namespace SurfDetector

/-- A DMatch record as read out of the `cv.DMatchVector`
(`{ distance, queryIdx, trainIdx }`, lines 132–136 of the source). -/
structure DMatch where
  distance : Nat
  queryIdx : Nat
  trainIdx : Nat
deriving DecidableEq, Repr

/-- The comparator of `matchesArray.sort((a, b) => a.distance - b.distance)`
as a boolean "less or equal" (ECMAScript `Array.prototype.sort` is a stable
sort, and this comparator orders by ascending `distance`). -/
def matchLE (a b : DMatch) : Bool := a.distance ≤ b.distance

/-- The stable ascending-by-distance sort of the match list
(line 137 of the source). -/
def sortMatches (ms : List DMatch) : List DMatch := ms.mergeSort matchLE

/-- The good-match selection, lines 137–141 of the source:
sort ascending by distance, then
`numGoodMatches = Math.floor(matchesArray.length * 0.5)` and
`goodMatchesArray = matchesArray.slice(0, Math.max(numGoodMatches, 10))`. -/
def selectGood (ms : List DMatch) : List DMatch :=
  (sortMatches ms).take (max (ms.length / 2) 10)

theorem matchLE_trans (a b c : DMatch) : matchLE a b → matchLE b c → matchLE a c := by
  simp only [matchLE, decide_eq_true_eq]
  omega

theorem matchLE_total (a b : DMatch) : matchLE a b || matchLE b a := by
  simp only [matchLE, Bool.or_eq_true, decide_eq_true_eq]
  omega

theorem sortMatches_sorted (ms : List DMatch) : (sortMatches ms).Pairwise (matchLE · ·) :=
  List.sorted_mergeSort matchLE_trans matchLE_total ms

theorem sortMatches_length (ms : List DMatch) : (sortMatches ms).length = ms.length :=
  List.length_mergeSort ms

theorem selectGood_length (ms : List DMatch) :
    (selectGood ms).length = min (max (ms.length / 2) 10) ms.length := by
  simp [selectGood, sortMatches_length]

theorem selectGood_sorted (ms : List DMatch) : (selectGood ms).Pairwise (matchLE · ·) :=
  (sortMatches_sorted ms).sublist (List.take_sublist _ _)

/-- Stability of the selection sort: a pair of equal-distance matches keeps
its original relative order in the sorted list. -/
theorem sortMatches_stable {a b : DMatch} {ms : List DMatch}
    (hab : [a, b].Sublist ms) (hd : a.distance = b.distance) :
    [a, b].Sublist (sortMatches ms) :=
  List.pair_sublist_mergeSort matchLE_trans matchLE_total
    (by simp [matchLE, hd]) hab

/-! ## Homography and corner transform -/

/-- A 3×3 projective transform matrix (row-major entries), as produced by
`cv.findHomography`. Machine floats are modelled by `ℚ`. -/
structure Hom where
  m00 : ℚ
  m01 : ℚ
  m02 : ℚ
  m10 : ℚ
  m11 : ℚ
  m12 : ℚ
  m20 : ℚ
  m21 : ℚ
  m22 : ℚ
deriving DecidableEq, Repr

/-- Modelled from the spec: `cv.perspectiveTransform` (implemented in
OpenCV.js, outside this repository) maps each point through the projective
transform — the image of `(x, y)` under the homography. -/
def applyHom (H : Hom) (p : ℚ × ℚ) : ℚ × ℚ :=
  let w := H.m20 * p.1 + H.m21 * p.2 + H.m22
  ((H.m00 * p.1 + H.m01 * p.2 + H.m02) / w,
   (H.m10 * p.1 + H.m11 * p.2 + H.m12) / w)

/-- The four reference-image corners in the order the source lists them
(lines 167–172): top-left, top-right, bottom-right, bottom-left, built
from `objectMat.cols` and `objectMat.rows`. -/
def objCornerPts (objW objH : Nat) : List (ℚ × ℚ) :=
  [(0, 0), (objW, 0), ((objW : ℚ), (objH : ℚ)), (0, objH)]

/-- Reading the four transformed corners back out of the flat
`sceneCorners.data32F` array (lines 179–186): for `i < 4` take entries
`2*i` and `2*i+1`, skipping the point when either is `undefined`. -/
def readCorners (data : List ℚ) : List (ℚ × ℚ) :=
  (List.range 4).filterMap fun i =>
    match data[2 * i]?, data[2 * i + 1]? with
    | some x, some y => some (x, y)
    | _, _ => none

/-! ## Match visualization -/

/-- One annotated point pair of the side-by-side match visualization:
the reference-side point, the frame-side point (both in the scaled
composite image), and whether the pair is drawn emphasized (green line,
rank below 10) rather than plain (yellow line). -/
structure VisPair where
  refPt : ℤ × ℤ
  framePt : ℤ × ℤ
  emphasized : Bool
deriving DecidableEq, Repr

/-- The structured side-by-side match-visualization record drawn on
`matchCanvas`. -/
structure VisRecord where
  pairs : List VisPair
deriving DecidableEq, Repr

/-- ECMAScript `Math.round`: half-up rounding. -/
def jsRound (q : ℚ) : ℤ := ⌊q + 1 / 2⌋

/-- The side-by-side match-visualization record of lines 212–254: both
images are scaled to height 400, and for each of the first
`Math.min(goodMatchesArray.length, 30)` good matches a line is drawn from
the scaled reference keypoint to the scaled (and right-shifted) frame
keypoint — green (emphasized) for ranks below 10, yellow otherwise; a
match whose keypoint lookup yields `undefined` is skipped (`continue`). -/
def buildVis (objW objH frameRows : Nat) (objKp frameKp : List (ℚ × ℚ))
    (good : List DMatch) : VisRecord :=
  let objScale : ℚ := 400 / (objH : ℚ)
  let frameScale : ℚ := 400 / (frameRows : ℚ)
  let objResizedCols : ℤ := jsRound ((objW : ℚ) * objScale)
  ⟨(List.range (min good.length 30)).filterMap fun i =>
    match good[i]? with
    | none => none
    | some m =>
      match objKp[m.queryIdx]?, frameKp[m.trainIdx]? with
      | some op, some sp =>
          some ⟨(jsRound (op.1 * objScale), jsRound (op.2 * objScale)),
                (jsRound (sp.1 * frameScale + (objResizedCols : ℚ)),
                 jsRound (sp.2 * frameScale)),
                decide (i < 10)⟩
      | _, _ => none⟩

/-- The annotated pair that `buildVis` produces for rank `i` when both
keypoint lookups succeed — a pointwise reformulation used to state the
rank-emphasis property. -/
def visPairAt (objW objH frameRows : Nat) (objKp frameKp : List (ℚ × ℚ))
    (good : List DMatch) (i : Nat) : VisPair :=
  let objScale : ℚ := 400 / (objH : ℚ)
  let frameScale : ℚ := 400 / (frameRows : ℚ)
  let objResizedCols : ℤ := jsRound ((objW : ℚ) * objScale)
  let m := good.getD i ⟨0, 0, 0⟩
  let op := objKp.getD m.queryIdx (0, 0)
  let sp := frameKp.getD m.trainIdx (0, 0)
  ⟨(jsRound (op.1 * objScale), jsRound (op.2 * objScale)),
   (jsRound (sp.1 * frameScale + (objResizedCols : ℚ)), jsRound (sp.2 * frameScale)),
   decide (i < 10)⟩

/-! ## Native resource heap

OpenCV.js objects (`cv.Mat`, `cv.KeyPointVector`, `cv.DMatchVector`,
`cv.ORB`, `cv.BFMatcher`) are emscripten-bound native objects: each
construction allocates, each `.delete()` releases, and calling `.delete()`
on an already-deleted object throws an embind `BindingError`
("instance already deleted"). The heap tracks the ids of the currently
live native objects; its `count` is the external allocation counter. -/

structure Heap where
  next : Nat
  live : Finset Nat
deriving DecidableEq

/-- The id handed out by the next allocation. -/
def Heap.allocId (h : Heap) : Nat := h.next

/-- Perform an allocation: the id `h.allocId` becomes live. -/
def Heap.bump (h : Heap) : Heap := ⟨h.next + 1, insert h.next h.live⟩

def Heap.isLive (h : Heap) (i : Nat) : Prop := i ∈ h.live

instance (h : Heap) (i : Nat) : Decidable (h.isLive i) :=
  inferInstanceAs (Decidable (i ∈ h.live))

/-- A `.delete()` call on a live object (per-tick deletes in `process`
always target objects allocated earlier in the same tick, hence live). -/
def Heap.erase (h : Heap) (i : Nat) : Heap := ⟨h.next, h.live.erase i⟩

/-- A `.delete()` call with the embind double-delete check: `none` models
the thrown `BindingError` when the object is already deleted. -/
def Heap.free (h : Heap) (i : Nat) : Option Heap :=
  if h.isLive i then some (h.erase i) else none

/-- The external allocation counter: number of live native objects. -/
def Heap.count (h : Heap) : Nat := h.live.card

/-- A `cv.Mat` handle as stored in the `frame` variable: its heap id and
its dimensions (`rows`/`cols`). -/
structure MatRes where
  id : Nat
  rows : Nat
  cols : Nat
deriving DecidableEq, Repr

/-! ## Session state and tick environment -/

/-- The cross-frame state captured by the `detectAndMatch` closure
(lines 42–69 of the source): the native heap, the `isRunning` flag, the
queued `requestAnimationFrame` id, the `frame` variable, the canvas
dimensions, the reference image data and the ids of the session-owned
native objects. -/
structure SessionState where
  heap : Heap
  isRunning : Bool
  animationFrameId : Option Nat
  rafNext : Nat
  frame : Option MatRes
  canvasW : Nat
  canvasH : Nat
  objW : Nat
  objH : Nat
  objKp : List (ℚ × ℚ)
  objDescRows : Nat
  objectMatId : Nat
  objectGrayId : Nat
  objKpId : Nat
  objDescId : Nat
  detectorId : Nat
  matcherId : Nat
deriving DecidableEq

/-- `animationFrameId = requestAnimationFrame(process)`: the host queues a
callback and returns a fresh request id. -/
def rafSchedule (s : SessionState) : SessionState :=
  { s with animationFrameId := some s.rafNext, rafNext := s.rafNext + 1 }

/-- The per-tick world: video readiness, which numeric-backend calls throw
on this tick, and the data the backend produces (frame keypoints, raw
matches, homography). `detectAndCompute` keeps keypoints and descriptors
index-aligned, so the frame descriptor row count equals `frameKp.length`. -/
structure TickEnv where
  videoW : Nat
  videoH : Nat
  paused : Bool
  ended : Bool
  captureThrows : Bool
  cvtColorThrows : Bool
  detectThrows : Bool
  matchThrows : Bool
  findHomographyThrows : Bool
  homography : Option Hom
  perspectiveThrows : Bool
  annotateThrows : Bool
  matchCanvasPresent : Bool
  visThrows : Bool
  frameKp : List (ℚ × ℚ)
  rawMatches : List DMatch
deriving DecidableEq, Repr

/-- The per-tick observable outcome. `notFound` covers every completed
tick that draws no bounding box (the source renders instead of emitting a
record; the spec names this rendering-free case `NotFound`). -/
inductive Outcome where
  | stopped
  | waiting
  | captureFailed
  | uncaught
  | notFound
  | found (corners : List (ℚ × ℚ)) (good : List DMatch)
deriving DecidableEq, Repr

/-- Everything observable about one invocation of `process`. The
`...Id` fields record which native objects this tick created for each
named role ( `none` when the tick never reached that allocation). -/
structure TickTrace where
  state : SessionState
  outcome : Outcome
  entered : Bool
  homographyCalled : Bool
  homographyArgRows : Nat
  warnLogged : Bool
  vis : Option VisRecord
  grayId : Option Nat
  kpId : Option Nat
  descId : Option Nat
  maskId : Option Nat
  matchesId : Option Nat
  objPointsId : Option Nat
  scenePointsId : Option Nat
  objCornersId : Option Nat
  sceneCornersId : Option Nat
  homographyId : Option Nat
deriving DecidableEq

/-- Trace with no allocations and no events recorded. -/
def baseTrace (s : SessionState) : TickTrace :=
  { state := s, outcome := .notFound, entered := false, homographyCalled := false,
    homographyArgRows := 0, warnLogged := false, vis := none,
    grayId := none, kpId := none, descId := none, maskId := none, matchesId := none,
    objPointsId := none, scenePointsId := none, objCornersId := none,
    sceneCornersId := none, homographyId := none }

/-! ## The pipeline -/

/-- Session construction, lines 42–69 and 334–335 of the source: read and
grayscale the reference image, run ORB on it (the `new cv.Mat()` mask
argument of line 54 is never deleted), optionally draw the reference
keypoints on `objectCanvas` (the clone is deleted right away), build the
cross-checking Hamming `BFMatcher`, and queue the first animation frame. -/
def setup (objW objH : Nat) (objKp : List (ℚ × ℚ)) (objDescRows : Nat)
    (objectCanvasPresent : Bool) (canvasW canvasH : Nat) : SessionState :=
  let h0 : Heap := ⟨0, ∅⟩
  let objectMat := h0.allocId
  let h1 := h0.bump
  let objectGray := h1.allocId
  let h2 := h1.bump
  let detector := h2.allocId
  let h3 := h2.bump
  let objKpV := h3.allocId
  let h4 := h3.bump
  let objDesc := h4.allocId
  let h5 := h4.bump
  let h6 := h5.bump
  let h7 :=
    if objectCanvasPresent then
      let disp := h6.allocId
      (h6.bump).erase disp
    else h6
  let matcher := h7.allocId
  let h8 := h7.bump
  { heap := h8, isRunning := true, animationFrameId := some 0, rafNext := 1,
    frame := none, canvasW := canvasW, canvasH := canvasH,
    objW := objW, objH := objH, objKp := objKp, objDescRows := objDescRows,
    objectMatId := objectMat, objectGrayId := objectGray,
    objKpId := objKpV, objDescId := objDesc,
    detectorId := detector, matcherId := matcher }

/-- End of a completed tick, lines 319–331: show the frame, delete the
four per-tick vectors, and reschedule while still running. -/
def tickFinish (s : SessionState) (gray kp desc matchesV : Nat) : SessionState :=
  let s := { s with heap := (((s.heap.erase gray).erase kp).erase desc).erase matchesV }
  if s.isRunning then rafSchedule s else s

/-- The partial trace of the homography `try` block. -/
structure HomTrace where
  state : SessionState
  outcome : Outcome
  warnLogged : Bool
  vis : Option VisRecord
  objCornersId : Option Nat
  sceneCornersId : Option Nat
  homographyId : Option Nat
deriving DecidableEq

/-- The `try` block of lines 161–309: `cv.findHomography` (an exception
here is caught at line 307 and logged), then — when the homography Mat is
non-empty — corner transform, frame annotation and the optional match
visualization. A caught exception after `objCorners`/`sceneCorners` are
created skips their deletes (lines 302–304), and an empty homography Mat
is never deleted at all. The inner visualization `try` (lines 211–299)
catches its own failures after `objResized`/`frameResized` are created. -/
def homographyBlock (s : SessionState) (env : TickEnv) (good : List DMatch) : HomTrace :=
  if env.findHomographyThrows then
    { state := s, outcome := .notFound, warnLogged := true, vis := none,
      objCornersId := none, sceneCornersId := none, homographyId := none }
  else
  let homId := s.heap.allocId
  let s := { s with heap := s.heap.bump }
  match env.homography with
  | none =>
      { state := s, outcome := .notFound, warnLogged := false, vis := none,
        objCornersId := none, sceneCornersId := none, homographyId := some homId }
  | some H =>
      let objC := s.heap.allocId
      let s := { s with heap := s.heap.bump }
      let scC := s.heap.allocId
      let s := { s with heap := s.heap.bump }
      if env.perspectiveThrows then
        { state := s, outcome := .notFound, warnLogged := true, vis := none,
          objCornersId := some objC, sceneCornersId := some scC,
          homographyId := some homId }
      else
      let corners :=
        readCorners (((objCornerPts s.objW s.objH).map (applyHom H)).flatMap
          fun p => [p.1, p.2])
      if env.annotateThrows then
        { state := s, outcome := .notFound, warnLogged := true, vis := none,
          objCornersId := some objC, sceneCornersId := some scC,
          homographyId := some homId }
      else
      let sv :=
        if env.matchCanvasPresent then
          if env.visThrows then
            ({ s with heap := s.heap.bump.bump }, (none : Option VisRecord))
          else
            let a := s.heap.allocId
            let h1 := s.heap.bump
            let b := h1.allocId
            let h2 := h1.bump
            let c := h2.allocId
            let h3 := h2.bump
            ({ s with heap := ((h3.erase a).erase b).erase c },
             some (buildVis s.objW s.objH s.canvasH s.objKp env.frameKp good))
        else (s, none)
      let s := sv.1
      let s := { s with heap := ((s.heap.erase objC).erase scC).erase homId }
      { state := s, outcome := .found corners good, warnLogged := false,
        vis := sv.2, objCornersId := some objC, sceneCornersId := some scC,
        homographyId := some homId }

/-- Lines 144–317 and 319–331: the good-match threshold test, the point
matrices, the homography `try` block and the common tick ending. -/
def matchedStage (s : SessionState) (env : TickEnv)
    (gray kp desc mask matchesV : Nat) : TickTrace :=
  let good := selectGood env.rawMatches
  if 4 ≤ good.length then
    let objPts := s.heap.allocId
    let s := { s with heap := s.heap.bump }
    let scPts := s.heap.allocId
    let s := { s with heap := s.heap.bump }
    let ht := homographyBlock s env good
    let s := { ht.state with heap := (ht.state.heap.erase objPts).erase scPts }
    { baseTrace (tickFinish s gray kp desc matchesV) with
      entered := true
      outcome := ht.outcome, warnLogged := ht.warnLogged
      homographyCalled := true, homographyArgRows := good.length, vis := ht.vis
      grayId := some gray, kpId := some kp, descId := some desc
      maskId := some mask, matchesId := some matchesV
      objPointsId := some objPts, scenePointsId := some scPts
      objCornersId := ht.objCornersId, sceneCornersId := ht.sceneCornersId
      homographyId := ht.homographyId }
  else
    { baseTrace (tickFinish s gray kp desc matchesV) with
      entered := true
      outcome := .notFound, grayId := some gray, kpId := some kp
      descId := some desc, maskId := some mask, matchesId := some matchesV }

/-- Lines 111–141 continued: after grayscale conversion succeeded — ORB
extraction, the empty-descriptor early return, brute-force matching and
selection. -/
def extractedStage (s : SessionState) (env : TickEnv) (gray : Nat) : TickTrace :=
  let kp := s.heap.allocId
  let s := { s with heap := s.heap.bump }
  let desc := s.heap.allocId
  let s := { s with heap := s.heap.bump }
  let mask := s.heap.allocId
  let s := { s with heap := s.heap.bump }
  if env.detectThrows then
    { baseTrace s with
      entered := true, outcome := .uncaught, grayId := some gray
      kpId := some kp, descId := some desc, maskId := some mask }
  else
  if env.frameKp.length = 0 ∨ s.objDescRows = 0 then
    let s := { s with heap := ((s.heap.erase gray).erase kp).erase desc }
    { baseTrace (rafSchedule s) with
      entered := true, outcome := .notFound
      grayId := some gray, kpId := some kp, descId := some desc
      maskId := some mask }
  else
  let matchesV := s.heap.allocId
  let s := { s with heap := s.heap.bump }
  if env.matchThrows then
    { baseTrace s with
      entered := true, outcome := .uncaught, grayId := some gray
      kpId := some kp, descId := some desc, maskId := some mask
      matchesId := some matchesV }
  else
  matchedStage s env gray kp desc mask matchesV

/-- Lines 99–108: `frame = cv.imread(canvas)` (a fresh Mat — the Mat
previously held by `frame` stays live but unreferenced), then the
grayscale conversion, whose exception would escape the callback. -/
def capturedStage (s : SessionState) (env : TickEnv) : TickTrace :=
  let fid := s.heap.allocId
  let s := { s with heap := s.heap.bump, frame := some ⟨fid, s.canvasH, s.canvasW⟩ }
  let gray := s.heap.allocId
  let s := { s with heap := s.heap.bump }
  if env.cvtColorThrows then
    { baseTrace s with entered := true, outcome := .uncaught, grayId := some gray }
  else
  extractedStage s env gray

/-- Lines 90–93: reuse the `frame` Mat, reallocating only when its
dimensions differ from the canvas. -/
def frameRealloc (s : SessionState) : SessionState :=
  match s.frame with
  | none =>
      let i := s.heap.allocId
      { s with heap := s.heap.bump, frame := some ⟨i, s.canvasH, s.canvasW⟩ }
  | some f =>
      if f.rows ≠ s.canvasH ∨ f.cols ≠ s.canvasW then
        let h := s.heap.erase f.id
        let i := h.allocId
        { s with heap := h.bump, frame := some ⟨i, s.canvasH, s.canvasW⟩ }
      else s

/-- The `process` callback, lines 74–332 of the source, transcribed
branch by branch through the stage functions above. Backend calls sitting
inside a `try` (frame capture, the homography block) degrade the tick;
the calls at lines 108, 113 and 129 sit in no `try`, so their exceptions
escape the callback and nothing further — including the rescheduling at
lines 329–331 — runs on that tick. -/
def process (s : SessionState) (env : TickEnv) : TickTrace :=
  if s.isRunning = false then { baseTrace s with outcome := .stopped }
  else
  if env.videoW = 0 ∨ env.videoH = 0 ∨ env.paused = true ∨ env.ended = true then
    { baseTrace (rafSchedule s) with entered := true, outcome := .waiting }
  else
  let s := frameRealloc { s with canvasW := env.videoW, canvasH := env.videoH }
  if env.captureThrows then
    { baseTrace (rafSchedule s) with
      entered := true, outcome := .captureFailed, warnLogged := true }
  else
  capturedStage s env

/-- The host fires the queued animation-frame callback: the queued request
id is consumed by the browser before the callback body runs. -/
def fireTick (s : SessionState) (env : TickEnv) : TickTrace :=
  process { s with animationFrameId := none } env

/-- Every transient resource named by the claim — grayscale buffer, frame
keypoint vector, frame descriptor matrix, match vector and the two match
point matrices — that the tick created is no longer live when it ends. -/
def coreReleased (t : TickTrace) : Prop :=
  (∀ i, t.grayId = some i → ¬ t.state.heap.isLive i)
  ∧ (∀ i, t.kpId = some i → ¬ t.state.heap.isLive i)
  ∧ (∀ i, t.descId = some i → ¬ t.state.heap.isLive i)
  ∧ (∀ i, t.matchesId = some i → ¬ t.state.heap.isLive i)
  ∧ (∀ i, t.objPointsId = some i → ¬ t.state.heap.isLive i)
  ∧ (∀ i, t.scenePointsId = some i → ¬ t.state.heap.isLive i)

/-- The corner point matrices (`objCorners`, `sceneCorners`) the tick
created are no longer live when it ends. -/
def cornersReleased (t : TickTrace) : Prop :=
  (∀ i, t.objCornersId = some i → ¬ t.state.heap.isLive i)
  ∧ (∀ i, t.sceneCornersId = some i → ¬ t.state.heap.isLive i)

/-- Embind `.delete()` with its double-delete check: `Except.error` models
the thrown `BindingError`. -/
def checkedFree (h : Heap) (i : Nat) : Except String Heap :=
  match h.free i with
  | some h => Except.ok h
  | none => Except.error "instance already deleted"

/-- The `stop` closure, lines 339–353: clear the running flag, cancel the
queued animation frame, then delete `frame` (when set — the variable is
not cleared afterwards) and the six session objects. -/
def stop (s : SessionState) : Except String SessionState := do
  let s := { s with isRunning := false, animationFrameId := none }
  let heap ←
    match s.frame with
    | some f => checkedFree s.heap f.id
    | none => pure s.heap
  let heap ← checkedFree heap s.objectMatId
  let heap ← checkedFree heap s.objectGrayId
  let heap ← checkedFree heap s.objKpId
  let heap ← checkedFree heap s.objDescId
  let heap ← checkedFree heap s.detectorId
  let heap ← checkedFree heap s.matcherId
  pure { s with heap := heap }

/-! ## The cross-checked Hamming matcher

The session constructs `new cv.BFMatcher(cv.NORM_HAMMING, true)` (line 66)
and calls `matcher.match(objDesc, desc, matches)` (line 129). The matcher
itself is implemented inside OpenCV.js, outside this repository, so it is
modelled from the spec (section 4.2). -/

/-- A binary descriptor: a fixed-length bit vector. -/
abbrev Descriptor := List Bool

/-- Hamming distance: the number of differing bit positions. -/
def hamming (d1 d2 : Descriptor) : Nat :=
  (List.zip d1 d2).countP fun p => p.1 != p.2

/-- Modelled from the spec: the nearest-neighbor search of
`cv.BFMatcher` (OpenCV.js, outside this repository) — the index of the
target descriptor with minimal Hamming distance to `d`, the earliest such
index on ties, `none` on an empty target set. -/
def nearestIdx (d : Descriptor) (ts : List Descriptor) : Option Nat :=
  (List.range ts.length).argmin fun j => hamming d (ts.getD j [])

/-- Modelled from the spec: `cv.BFMatcher(cv.NORM_HAMMING, true).match`
(OpenCV.js, outside this repository) — for each query descriptor find its
nearest target by Hamming distance and keep the pair only when the
reverse nearest-neighbor search maps the target back to that same query
(mutual-nearest-neighbor cross-check). -/
def bfMatchCross (qs ts : List Descriptor) : List DMatch :=
  (List.range qs.length).filterMap fun i =>
    match nearestIdx (qs.getD i []) ts with
    | none => none
    | some j =>
        if nearestIdx (ts.getD j []) qs = some i then
          some ⟨hamming (qs.getD i []) (ts.getD j []), i, j⟩
        else none

theorem nearestIdx_lt {d : Descriptor} {ts : List Descriptor} {j : Nat}
    (h : nearestIdx d ts = some j) : j < ts.length := by
  have := List.argmin_mem h
  simpa using this

theorem nearestIdx_min {d : Descriptor} {ts : List Descriptor} {j : Nat}
    (h : nearestIdx d ts = some j) :
    ∀ k, k < ts.length → hamming d (ts.getD j []) ≤ hamming d (ts.getD k []) := by
  intro k hk
  have hm : j ∈ (List.range ts.length).argmin fun j => hamming d (ts.getD j []) := h
  exact @List.le_of_mem_argmin Nat Nat _ (fun j => hamming d (ts.getD j []))
    (List.range ts.length) k j (List.mem_range.mpr hk) hm

theorem bfMatchCross_mem {qs ts : List Descriptor} {m : DMatch}
    (h : m ∈ bfMatchCross qs ts) :
    m.queryIdx < qs.length ∧
    nearestIdx (qs.getD m.queryIdx []) ts = some m.trainIdx ∧
    nearestIdx (ts.getD m.trainIdx []) qs = some m.queryIdx ∧
    m.distance = hamming (qs.getD m.queryIdx []) (ts.getD m.trainIdx []) := by
  rw [bfMatchCross, List.mem_filterMap] at h
  obtain ⟨i, hi, hf⟩ := h
  rw [List.mem_range] at hi
  rcases hn : nearestIdx (qs.getD i []) ts with _ | j
  · rw [hn] at hf
    simp at hf
  · rw [hn] at hf
    dsimp only at hf
    by_cases hc : nearestIdx (ts.getD j []) qs = some i
    · rw [if_pos hc] at hf
      injection hf with hm
      subst hm
      exact ⟨hi, hn, hc, rfl⟩
    · rw [if_neg hc] at hf
      simp at hf

/-! ## Concrete example sessions and tick environments -/

/-- Five reference keypoints for concrete runs. -/
def exKp : List (ℚ × ℚ) := [(0, 0), (1, 0), (0, 1), (2, 2), (3, 1)]

/-- Five raw matches, already sorted ascending by distance. -/
def exRaw : List DMatch := [⟨1, 3, 3⟩, ⟨3, 1, 1⟩, ⟨5, 2, 2⟩, ⟨7, 0, 0⟩, ⟨9, 4, 4⟩]

/-- A freshly constructed session on a 100×50 reference image with five
keypoints/descriptors. -/
def exSession : SessionState := setup 100 50 exKp 5 false 0 0

/-- A ready 8×4 video tick with no backend faults, five frame keypoints,
the identity homography and the five raw matches of `exRaw`. -/
def exEnv : TickEnv :=
  { videoW := 8, videoH := 4, paused := false, ended := false,
    captureThrows := false, cvtColorThrows := false, detectThrows := false,
    matchThrows := false, findHomographyThrows := false,
    homography := some ⟨1, 0, 0, 0, 1, 0, 0, 0, 1⟩, perspectiveThrows := false,
    annotateThrows := false, matchCanvasPresent := false, visThrows := false,
    frameKp := exKp, rawMatches := exRaw }

/-- Sixty-two raw matches (already sorted by distance) with index-aligned
keypoints: enough for the good-match selection to keep 31 of them. -/
def exRaw62 : List DMatch := (List.range 62).map fun i => ⟨i, i, i⟩

/-- Sixty-two keypoints, one per raw match of `exRaw62`. -/
def exKp62 : List (ℚ × ℚ) := (List.range 62).map fun i => ((i : ℚ), 0)

/-! ## Stage lemmas -/

theorem homographyBlock_isRunning (s : SessionState) (env : TickEnv) (good : List DMatch) :
    (homographyBlock s env good).state.isRunning = s.isRunning := by
  unfold homographyBlock
  repeat' split
  all_goals rfl

theorem homographyBlock_rafNext (s : SessionState) (env : TickEnv) (good : List DMatch) :
    (homographyBlock s env good).state.rafNext = s.rafNext := by
  unfold homographyBlock
  repeat' split
  all_goals rfl

theorem tickFinish_animationFrameId (s : SessionState) (gray kp desc matchesV : Nat)
    (h : s.isRunning = true) :
    (tickFinish s gray kp desc matchesV).animationFrameId = some s.rafNext := by
  simp [tickFinish, rafSchedule, h]

theorem frameRealloc_isRunning (s : SessionState) :
    (frameRealloc s).isRunning = s.isRunning := by
  unfold frameRealloc
  repeat' split
  all_goals rfl

theorem homographyBlock_not_uncaught (s : SessionState) (env : TickEnv) (good : List DMatch) :
    (homographyBlock s env good).outcome ≠ Outcome.uncaught := by
  unfold homographyBlock
  repeat' split
  all_goals simp

theorem matchedStage_completes (s : SessionState) (env : TickEnv) (g k d m v : Nat)
    (hrun : s.isRunning = true) :
    (matchedStage s env g k d m v).outcome ≠ Outcome.uncaught ∧
    ((matchedStage s env g k d m v).state.animationFrameId).isSome = true := by
  unfold matchedStage
  dsimp only
  split
  · constructor
    · simpa [baseTrace] using homographyBlock_not_uncaught _ env (selectGood env.rawMatches)
    · rw [baseTrace]
      dsimp only
      rw [tickFinish_animationFrameId]
      · rfl
      · simpa [homographyBlock_isRunning] using hrun
  · constructor
    · simp [baseTrace]
    · rw [baseTrace]
      dsimp only
      rw [tickFinish_animationFrameId]
      · rfl
      · simpa using hrun

theorem extractedStage_completes (s : SessionState) (env : TickEnv) (g : Nat)
    (hrun : s.isRunning = true)
    (hdet : env.detectThrows = false) (hmat : env.matchThrows = false) :
    (extractedStage s env g).outcome ≠ Outcome.uncaught ∧
    ((extractedStage s env g).state.animationFrameId).isSome = true := by
  unfold extractedStage
  dsimp only
  rw [if_neg (by simp [hdet])]
  split
  · constructor
    · simp [baseTrace]
    · simp [baseTrace, rafSchedule]
  · rw [if_neg (by simp [hmat])]
    exact matchedStage_completes _ env g _ _ _ _ (by simpa using hrun)

theorem capturedStage_completes (s : SessionState) (env : TickEnv)
    (hrun : s.isRunning = true) (hcvt : env.cvtColorThrows = false)
    (hdet : env.detectThrows = false) (hmat : env.matchThrows = false) :
    (capturedStage s env).outcome ≠ Outcome.uncaught ∧
    ((capturedStage s env).state.animationFrameId).isSome = true := by
  unfold capturedStage
  dsimp only
  rw [if_neg (by simp [hcvt])]
  exact extractedStage_completes _ env _ (by simpa using hrun) hdet hmat

theorem process_completes (s : SessionState) (env : TickEnv)
    (hrun : s.isRunning = true) (hcvt : env.cvtColorThrows = false)
    (hdet : env.detectThrows = false) (hmat : env.matchThrows = false) :
    (process s env).outcome ≠ Outcome.uncaught ∧
    ((process s env).state.animationFrameId).isSome = true := by
  unfold process
  dsimp only
  rw [if_neg (by simp [hrun])]
  split
  · constructor
    · simp [baseTrace]
    · simp [baseTrace, rafSchedule]
  · split
    · constructor
      · simp [baseTrace]
      · simp [baseTrace, rafSchedule]
    · exact capturedStage_completes _ env (by simpa [frameRealloc_isRunning] using hrun) hcvt hdet hmat

theorem frameRealloc_objDescRows (s : SessionState) :
    (frameRealloc s).objDescRows = s.objDescRows := by
  unfold frameRealloc
  repeat' split
  all_goals rfl

theorem homographyBlock_throw (s : SessionState) (env : TickEnv) (good : List DMatch)
    (hft : env.findHomographyThrows = true) :
    (homographyBlock s env good).outcome = Outcome.notFound ∧
    (homographyBlock s env good).warnLogged = true := by
  unfold homographyBlock
  simp [hft]

theorem matchedStage_homthrow (s : SessionState) (env : TickEnv) (g k d m v : Nat)
    (hgood : 4 ≤ (selectGood env.rawMatches).length)
    (hft : env.findHomographyThrows = true) :
    (matchedStage s env g k d m v).outcome = Outcome.notFound ∧
    (matchedStage s env g k d m v).warnLogged = true := by
  unfold matchedStage
  dsimp only
  rw [if_pos hgood]
  refine ⟨?_, ?_⟩
  · rw [baseTrace]
    dsimp only
    exact (homographyBlock_throw _ env _ hft).1
  · rw [baseTrace]
    dsimp only
    exact (homographyBlock_throw _ env _ hft).2

theorem extractedStage_homthrow (s : SessionState) (env : TickEnv) (g : Nat)
    (hdet : env.detectThrows = false) (hmat : env.matchThrows = false)
    (hne : env.frameKp.length ≠ 0) (hod : s.objDescRows ≠ 0)
    (hgood : 4 ≤ (selectGood env.rawMatches).length)
    (hft : env.findHomographyThrows = true) :
    (extractedStage s env g).outcome = Outcome.notFound ∧
    (extractedStage s env g).warnLogged = true := by
  unfold extractedStage
  dsimp only
  rw [if_neg (by simp [hdet]), if_neg (by simp [hne, hod]), if_neg (by simp [hmat])]
  exact matchedStage_homthrow _ env g _ _ _ _ hgood hft

theorem capturedStage_homthrow (s : SessionState) (env : TickEnv)
    (hcvt : env.cvtColorThrows = false)
    (hdet : env.detectThrows = false) (hmat : env.matchThrows = false)
    (hne : env.frameKp.length ≠ 0) (hod : s.objDescRows ≠ 0)
    (hgood : 4 ≤ (selectGood env.rawMatches).length)
    (hft : env.findHomographyThrows = true) :
    (capturedStage s env).outcome = Outcome.notFound ∧
    (capturedStage s env).warnLogged = true := by
  unfold capturedStage
  dsimp only
  rw [if_neg (by simp [hcvt])]
  exact extractedStage_homthrow _ env _ hdet hmat hne (by simpa using hod) hgood hft

theorem process_homthrow (s : SessionState) (env : TickEnv)
    (hrun : s.isRunning = true)
    (hw : env.videoW ≠ 0) (hh : env.videoH ≠ 0)
    (hp : env.paused = false) (he : env.ended = false)
    (hcap : env.captureThrows = false) (hcvt : env.cvtColorThrows = false)
    (hdet : env.detectThrows = false) (hmat : env.matchThrows = false)
    (hne : env.frameKp.length ≠ 0) (hod : s.objDescRows ≠ 0)
    (hgood : 4 ≤ (selectGood env.rawMatches).length)
    (hft : env.findHomographyThrows = true) :
    (process s env).outcome = Outcome.notFound ∧
    (process s env).warnLogged = true := by
  unfold process
  dsimp only
  rw [if_neg (by simp [hrun]), if_neg (by simp [hw, hh, hp, he]), if_neg (by simp [hcap])]
  refine capturedStage_homthrow _ env hcvt hdet hmat hne ?_ hgood hft
  rw [frameRealloc_objDescRows]
  exact hod

theorem process_capture_caught (s : SessionState) (env : TickEnv)
    (hrun : s.isRunning = true)
    (hw : env.videoW ≠ 0) (hh : env.videoH ≠ 0)
    (hp : env.paused = false) (he : env.ended = false)
    (hcap : env.captureThrows = true) :
    (process s env).outcome = Outcome.captureFailed ∧
    (process s env).warnLogged = true := by
  unfold process
  dsimp only
  rw [if_neg (by simp [hrun]), if_neg (by simp [hw, hh, hp, he]), if_pos (by simp [hcap])]
  constructor
  · simp [baseTrace]
  · simp [baseTrace]

/-! ## Claim theorems -/

/-- C2: for every input list of matches of length `n`, the match selector
returns a list sorted ascending by distance, of length
`max(floor(0.5*n), min(n, 10))` (in particular empty for `n = 0`), and the
selection is the prefix of a stable sort: equal-distance matches keep
their original relative order. -/
theorem C2_selector_spec (ms : List DMatch) :
    (selectGood ms).Pairwise (fun a b => a.distance ≤ b.distance)
    ∧ (selectGood ms).length = max (ms.length / 2) (min ms.length 10)
    ∧ (ms.length = 0 → selectGood ms = [])
    ∧ selectGood ms = (sortMatches ms).take (max (ms.length / 2) 10)
    ∧ (∀ a b, [a, b].Sublist ms → a.distance = b.distance →
        [a, b].Sublist (sortMatches ms)) := by
  have hlen := selectGood_length ms
  refine ⟨?_, ?_, ?_, rfl, fun a b hab hd => sortMatches_stable hab hd⟩
  · exact (selectGood_sorted ms).imp fun h => by
      simpa [matchLE] using h
  · omega
  · intro h0
    have : (selectGood ms).length = 0 := by omega
    exact List.length_eq_zero.mp this

/-- Witness for C2 at a concrete input. -/
theorem C2_selector_spec_witness :
    (selectGood [⟨5, 0, 0⟩, ⟨3, 1, 1⟩, ⟨3, 2, 2⟩]).length = 3
    ∧ [(⟨3, 1, 1⟩ : DMatch), ⟨3, 2, 2⟩].Sublist
        (sortMatches [⟨5, 0, 0⟩, ⟨3, 1, 1⟩, ⟨3, 2, 2⟩]) := by
  constructor
  · have h := (C2_selector_spec [⟨5, 0, 0⟩, ⟨3, 1, 1⟩, ⟨3, 2, 2⟩]).2.1
    simpa using h
  · exact (C2_selector_spec [⟨5, 0, 0⟩, ⟨3, 1, 1⟩, ⟨3, 2, 2⟩]).2.2.2.2 ⟨3, 1, 1⟩ ⟨3, 2, 2⟩
      (List.sublist_cons_self _ _) rfl

/-- C8: the cross-checked Hamming matcher keeps at most one match per
query descriptor; every kept match pairs a query with a nearest target by
Hamming distance, and the nearest neighbor of the target descriptor in
the reverse direction is that same query descriptor. -/
theorem C8_matcher_cross_check (qs ts : List Descriptor) :
    (∀ m₁ m₂, m₁ ∈ bfMatchCross qs ts → m₂ ∈ bfMatchCross qs ts →
        m₁.queryIdx = m₂.queryIdx → m₁ = m₂)
    ∧ (∀ m, m ∈ bfMatchCross qs ts →
        m.queryIdx < qs.length ∧ m.trainIdx < ts.length
        ∧ m.distance = hamming (qs.getD m.queryIdx []) (ts.getD m.trainIdx [])
        ∧ (∀ j, j < ts.length →
            m.distance ≤ hamming (qs.getD m.queryIdx []) (ts.getD j []))
        ∧ nearestIdx (ts.getD m.trainIdx []) qs = some m.queryIdx) := by
  constructor
  · intro m₁ m₂ h₁ h₂ hq
    obtain ⟨-, hn₁, -, hd₁⟩ := bfMatchCross_mem h₁
    obtain ⟨-, hn₂, -, hd₂⟩ := bfMatchCross_mem h₂
    rw [hq] at hn₁ hd₁
    rw [hn₁] at hn₂
    injection hn₂ with ht
    cases m₁
    cases m₂
    simp_all
  · intro m hm
    obtain ⟨hq, hn, hc, hd⟩ := bfMatchCross_mem hm
    refine ⟨hq, nearestIdx_lt hn, hd, fun j hj => ?_, hc⟩
    rw [hd]
    exact nearestIdx_min hn j hj

/-- Witness for C8 at a concrete pair of descriptor sets. -/
theorem C8_matcher_cross_check_witness :
    nearestIdx [true, false] [[true, false], [false, false]] = some 0 := by
  have h := (C8_matcher_cross_check [[true, false], [false, false]]
      [[true, true], [true, false]]).2 ⟨0, 0, 1⟩ (by decide)
  simpa using h.2.2.2.2


/-- C1 as stated is false: an exception in grayscale conversion (step 2)
is not caught — the callback dies and no next tick is scheduled. The
claim fails at this concrete running session and ready frame. -/
theorem C1_counterexample :
    (fireTick exSession { exEnv with cvtColorThrows := true }).outcome = Outcome.uncaught
    ∧ (fireTick exSession { exEnv with cvtColorThrows := true }).state.animationFrameId
        = none := by
  constructor
  · decide
  · decide

/-- C1 amended: exceptions thrown during frame capture and during the
homography stage (step 6) are caught, logged via `console.warn`, and the
tick degrades (capture failure skips the tick, homography failure yields
`NotFound`) with the next tick always scheduled; but only when grayscale
conversion, keypoint/descriptor extraction and descriptor matching
(steps 2–4) do not throw — those calls sit outside every `try`. -/
theorem C1_exception_boundary (s : SessionState) (env : TickEnv)
    (hrun : s.isRunning = true)
    (hw : env.videoW ≠ 0) (hh : env.videoH ≠ 0)
    (hp : env.paused = false) (he : env.ended = false)
    (hcvt : env.cvtColorThrows = false) (hdet : env.detectThrows = false)
    (hmat : env.matchThrows = false) :
    (process s env).outcome ≠ Outcome.uncaught
    ∧ ((process s env).state.animationFrameId).isSome = true
    ∧ (env.captureThrows = true →
        (process s env).outcome = Outcome.captureFailed
          ∧ (process s env).warnLogged = true)
    ∧ (env.captureThrows = false → env.findHomographyThrows = true →
        env.frameKp.length ≠ 0 → s.objDescRows ≠ 0 →
        4 ≤ (selectGood env.rawMatches).length →
        (process s env).outcome = Outcome.notFound
          ∧ (process s env).warnLogged = true) := by
  refine ⟨(process_completes s env hrun hcvt hdet hmat).1,
          (process_completes s env hrun hcvt hdet hmat).2, ?_, ?_⟩
  · intro hcap
    exact process_capture_caught s env hrun hw hh hp he hcap
  · intro hcap hft hne hod hgood
    exact process_homthrow s env hrun hw hh hp he hcap hcvt hdet hmat hne hod hgood hft

/-- Witness for the amended C1: on a concrete tick whose
`cv.findHomography` throws, the tick completes as `NotFound`, the failure
is logged, and the next tick is scheduled. -/
theorem C1_exception_boundary_witness :
    (process { exSession with animationFrameId := none }
        { exEnv with findHomographyThrows := true }).outcome = Outcome.notFound
    ∧ (process { exSession with animationFrameId := none }
        { exEnv with findHomographyThrows := true }).warnLogged = true := by
  have hgood :
      4 ≤ (selectGood ({ exEnv with findHomographyThrows := true } : TickEnv).rawMatches).length := by
    rw [selectGood_length]
    decide
  have h := C1_exception_boundary { exSession with animationFrameId := none }
    { exEnv with findHomographyThrows := true }
    rfl (by decide) (by decide) rfl rfl rfl rfl rfl
  exact h.2.2.2 rfl rfl (by decide) (by decide) hgood


theorem matchedStage_called (s : SessionState) (env : TickEnv) (g k d m v : Nat) :
    (matchedStage s env g k d m v).homographyCalled = true →
    4 ≤ (matchedStage s env g k d m v).homographyArgRows := by
  unfold matchedStage
  dsimp only
  split
  next hge => intro _; simpa [baseTrace] using hge
  next => intro h; simp [baseTrace] at h

theorem extractedStage_called (s : SessionState) (env : TickEnv) (g : Nat) :
    (extractedStage s env g).homographyCalled = true →
    4 ≤ (extractedStage s env g).homographyArgRows := by
  unfold extractedStage
  dsimp only
  split
  next => intro h; simp [baseTrace] at h
  next =>
    split
    next => intro h; simp [baseTrace] at h
    next =>
      split
      next => intro h; simp [baseTrace] at h
      next => exact matchedStage_called _ _ _ _ _ _ _

theorem capturedStage_called (s : SessionState) (env : TickEnv) :
    (capturedStage s env).homographyCalled = true →
    4 ≤ (capturedStage s env).homographyArgRows := by
  unfold capturedStage
  dsimp only
  split
  next => intro h; simp [baseTrace] at h
  next => exact extractedStage_called _ _ _

theorem process_called (s : SessionState) (env : TickEnv) :
    (process s env).homographyCalled = true →
    4 ≤ (process s env).homographyArgRows := by
  unfold process
  dsimp only
  split
  next => intro h; simp [baseTrace] at h
  next =>
    split
    next => intro h; simp [baseTrace] at h
    next =>
      split
      next => intro h; simp [baseTrace] at h
      next => exact capturedStage_called _ _

theorem matchedStage_lt4 (s : SessionState) (env : TickEnv) (g k d m v : Nat)
    (hlt : (selectGood env.rawMatches).length < 4) :
    (matchedStage s env g k d m v).outcome = Outcome.notFound ∧
    (matchedStage s env g k d m v).homographyCalled = false := by
  unfold matchedStage
  dsimp only
  rw [if_neg (by omega)]
  constructor
  · simp [baseTrace]
  · simp [baseTrace]

theorem extractedStage_lt4 (s : SessionState) (env : TickEnv) (g : Nat)
    (hdet : env.detectThrows = false) (hmat : env.matchThrows = false)
    (hne : env.frameKp.length ≠ 0) (hod : s.objDescRows ≠ 0)
    (hlt : (selectGood env.rawMatches).length < 4) :
    (extractedStage s env g).outcome = Outcome.notFound ∧
    (extractedStage s env g).homographyCalled = false := by
  unfold extractedStage
  dsimp only
  rw [if_neg (by simp [hdet]), if_neg (by simp [hne, hod]), if_neg (by simp [hmat])]
  exact matchedStage_lt4 _ env g _ _ _ _ hlt

theorem capturedStage_lt4 (s : SessionState) (env : TickEnv)
    (hcvt : env.cvtColorThrows = false)
    (hdet : env.detectThrows = false) (hmat : env.matchThrows = false)
    (hne : env.frameKp.length ≠ 0) (hod : s.objDescRows ≠ 0)
    (hlt : (selectGood env.rawMatches).length < 4) :
    (capturedStage s env).outcome = Outcome.notFound ∧
    (capturedStage s env).homographyCalled = false := by
  unfold capturedStage
  dsimp only
  rw [if_neg (by simp [hcvt])]
  exact extractedStage_lt4 _ env _ hdet hmat hne (by simpa using hod) hlt

theorem process_lt4 (s : SessionState) (env : TickEnv)
    (hrun : s.isRunning = true)
    (hw : env.videoW ≠ 0) (hh : env.videoH ≠ 0)
    (hp : env.paused = false) (he : env.ended = false)
    (hcap : env.captureThrows = false) (hcvt : env.cvtColorThrows = false)
    (hdet : env.detectThrows = false) (hmat : env.matchThrows = false)
    (hne : env.frameKp.length ≠ 0) (hod : s.objDescRows ≠ 0)
    (hlt : (selectGood env.rawMatches).length < 4) :
    (process s env).outcome = Outcome.notFound ∧
    (process s env).homographyCalled = false := by
  unfold process
  dsimp only
  rw [if_neg (by simp [hrun]), if_neg (by simp [hw, hh, hp, he]), if_neg (by simp [hcap])]
  refine capturedStage_lt4 _ env hcvt hdet hmat hne ?_ hlt
  rw [frameRealloc_objDescRows]
  exact hod

/-- C6: a tick that reaches selection with fewer than 4 good matches ends
as `NotFound` without `cv.findHomography` ever being invoked; and whenever
`cv.findHomography` is invoked, it receives at least 4 point pairs. -/
theorem C6_min_matches (s : SessionState) (env : TickEnv) :
    ((process s env).homographyCalled = true → 4 ≤ (process s env).homographyArgRows)
    ∧ (s.isRunning = true →
       env.videoW ≠ 0 → env.videoH ≠ 0 → env.paused = false → env.ended = false →
       env.captureThrows = false → env.cvtColorThrows = false →
       env.detectThrows = false → env.matchThrows = false →
       env.frameKp.length ≠ 0 → s.objDescRows ≠ 0 →
       (selectGood env.rawMatches).length < 4 →
       (process s env).outcome = Outcome.notFound
         ∧ (process s env).homographyCalled = false) := by
  refine ⟨process_called s env, ?_⟩
  intro hrun hw hh hp he hcap hcvt hdet hmat hne hod hlt
  exact process_lt4 s env hrun hw hh hp he hcap hcvt hdet hmat hne hod hlt

/-- Witness for C6: a concrete tick with only 3 raw matches ends as
`NotFound` and never calls `cv.findHomography`. -/
theorem C6_min_matches_witness :
    (process { exSession with animationFrameId := none }
        { exEnv with rawMatches := [⟨1, 0, 0⟩, ⟨2, 1, 1⟩, ⟨3, 2, 2⟩] }).outcome
      = Outcome.notFound
    ∧ (process { exSession with animationFrameId := none }
        { exEnv with rawMatches := [⟨1, 0, 0⟩, ⟨2, 1, 1⟩, ⟨3, 2, 2⟩] }).homographyCalled
      = false := by
  have h := (C6_min_matches { exSession with animationFrameId := none }
    { exEnv with rawMatches := [⟨1, 0, 0⟩, ⟨2, 1, 1⟩, ⟨3, 2, 2⟩] }).2
  exact h rfl (by decide) (by decide) rfl rfl rfl rfl rfl rfl (by decide) (by decide)
    (by rw [selectGood_length]; decide)


theorem frameRealloc_objW (s : SessionState) : (frameRealloc s).objW = s.objW := by
  unfold frameRealloc
  repeat' split
  all_goals rfl

theorem frameRealloc_objH (s : SessionState) : (frameRealloc s).objH = s.objH := by
  unfold frameRealloc
  repeat' split
  all_goals rfl

theorem readCorners_map (f : ℚ × ℚ → ℚ × ℚ) (p0 p1 p2 p3 : ℚ × ℚ) :
    readCorners (([p0, p1, p2, p3].map f).flatMap fun p => [p.1, p.2])
      = [f p0, f p1, f p2, f p3] := rfl

theorem homographyBlock_found (s : SessionState) (env : TickEnv) (good : List DMatch)
    (H : Hom) (hft : env.findHomographyThrows = false) (hH : env.homography = some H)
    (hpt : env.perspectiveThrows = false) (han : env.annotateThrows = false) :
    (homographyBlock s env good).outcome =
      Outcome.found
        (readCorners (((objCornerPts s.objW s.objH).map (applyHom H)).flatMap
          fun p => [p.1, p.2]))
        good := by
  unfold homographyBlock
  simp [hft, hH, hpt, han]

/-- C7: whenever a tick obtains a valid (non-empty) homography and runs
to completion, the emitted `Found.corners` are exactly the images under
that homography of the reference corners (0,0), (w,0), (w,h), (0,h), in
that order, and `Found` carries the selected good matches. -/
theorem C7_found_corners (s : SessionState) (env : TickEnv) (H : Hom)
    (hrun : s.isRunning = true)
    (hw : env.videoW ≠ 0) (hh : env.videoH ≠ 0)
    (hp : env.paused = false) (he : env.ended = false)
    (hcap : env.captureThrows = false) (hcvt : env.cvtColorThrows = false)
    (hdet : env.detectThrows = false) (hmat : env.matchThrows = false)
    (hne : env.frameKp.length ≠ 0) (hod : s.objDescRows ≠ 0)
    (hgood : 4 ≤ (selectGood env.rawMatches).length)
    (hft : env.findHomographyThrows = false) (hH : env.homography = some H)
    (hpt : env.perspectiveThrows = false) (han : env.annotateThrows = false) :
    (process s env).outcome =
      Outcome.found
        [applyHom H (0, 0), applyHom H ((s.objW : ℚ), 0),
         applyHom H ((s.objW : ℚ), (s.objH : ℚ)), applyHom H (0, (s.objH : ℚ))]
        (selectGood env.rawMatches) := by
  unfold process
  dsimp only
  rw [if_neg (by simp [hrun]), if_neg (by simp [hw, hh, hp, he]), if_neg (by simp [hcap])]
  unfold capturedStage
  dsimp only
  rw [if_neg (by simp [hcvt])]
  unfold extractedStage
  dsimp only
  rw [if_neg (by simp [hdet]),
      if_neg (by simp [hne, frameRealloc_objDescRows, hod]),
      if_neg (by simp [hmat])]
  unfold matchedStage
  dsimp only
  rw [if_pos hgood]
  rw [baseTrace]
  dsimp only
  rw [homographyBlock_found _ env _ H hft hH hpt han]
  dsimp only
  rw [frameRealloc_objW, frameRealloc_objH]
  dsimp only
  rw [objCornerPts, readCorners_map]

/-- Witness for C7: with the identity homography on a 100×50 reference,
the emitted corners are exactly the reference corners. -/
theorem C7_found_corners_witness :
    (process { exSession with animationFrameId := none } exEnv).outcome
      = Outcome.found [(0, 0), (100, 0), (100, 50), (0, 50)] exRaw := by
  have hsel : selectGood exEnv.rawMatches = exRaw := by
    show selectGood exRaw = exRaw
    rw [selectGood, sortMatches, List.mergeSort_of_sorted (by decide)]
    decide
  have hgood : 4 ≤ (selectGood exEnv.rawMatches).length := by
    rw [selectGood_length]
    decide
  have h := C7_found_corners { exSession with animationFrameId := none } exEnv
    ⟨1, 0, 0, 0, 1, 0, 0, 0, 1⟩ rfl (by decide) (by decide) rfl rfl rfl rfl rfl rfl
    (by decide) (by decide) hgood rfl rfl rfl rfl
  rw [hsel] at h
  rw [h]
  dsimp only [exSession, setup]
  simp [applyHom]


theorem stop_ok_shape {s s' : SessionState} (h : stop s = Except.ok s') :
    s'.isRunning = false ∧ s'.animationFrameId = none := by
  unfold stop checkedFree at h
  simp only [bind, Except.bind] at h
  repeat' split at h
  all_goals first
    | exact (Except.noConfusion h)
    | (injection h with h
       subst h
       exact ⟨rfl, rfl⟩)

theorem process_stopped {s : SessionState} (hrun : s.isRunning = false) (env : TickEnv) :
    process s env = { baseTrace s with outcome := Outcome.stopped } := by
  unfold process
  rw [if_pos hrun]

/-- C3 amended: once `stop()` returns successfully, the running flag is
cleared and the queued animation frame is cancelled, so no further tick
starts — firing the callback is a complete no-op; but `stop()` is not
idempotent: a second call hits embind double-deletes and throws. -/
theorem C3_stop_cancels (s s' : SessionState) (h : stop s = Except.ok s') :
    s'.isRunning = false
    ∧ s'.animationFrameId = none
    ∧ ∀ env, process s' env = { baseTrace s' with outcome := Outcome.stopped }
      ∧ (process s' env).entered = false := by
  obtain ⟨h1, h2⟩ := stop_ok_shape h
  refine ⟨h1, h2, fun env => ⟨process_stopped h1 env, ?_⟩⟩
  rw [process_stopped h1 env]
  rfl

/-- Witness for the amended C3 at a concrete freshly set-up session. -/
theorem C3_stop_cancels_witness :
    (stop exSession).toOption.map
        (fun s => (s.isRunning, s.animationFrameId, (process s exEnv).entered))
      = some (false, none, false) := by
  cases hs : stop exSession with
  | error e =>
      have hsome : (stop exSession).toOption.isSome = true := by decide
      rw [hs] at hsome
      simp [Except.toOption] at hsome
  | ok s' =>
      have h := C3_stop_cancels exSession s' hs
      simp [Except.toOption, h.1, h.2.1, (h.2.2 exEnv).2]

/-- C3 as stated is false: `stop()` is not idempotent. The first call
succeeds, but a second call on the same session re-deletes the native
objects of the session (the source never clears `objectMat` nor checks),
and embind throws "instance already deleted". -/
theorem C3_counterexample :
    (stop exSession).toOption.isSome = true
    ∧ ((stop exSession).bind stop).toOption = none := by
  constructor
  · decide
  · decide


/-- C4 is false on the code: `frame = cv.imread(canvas)` (line 99) binds a
brand-new Mat on every tick. Across two consecutive processed ticks with
identical video dimensions (8×4), the session frame buffer is id 8 after
the first tick and id 13 after the second — a fresh allocation — and the
superseded buffer (id 8) is still live afterwards: it leaked rather than
being released. -/
theorem C4_frame_buffer_reallocated :
    (fireTick exSession { exEnv with frameKp := [] }).state.frame.map MatRes.id = some 8
    ∧ (fireTick (fireTick exSession { exEnv with frameKp := [] }).state
        { exEnv with frameKp := [] }).state.frame.map MatRes.id = some 13
    ∧ (fireTick (fireTick exSession { exEnv with frameKp := [] }).state
        { exEnv with frameKp := [] }).state.heap.isLive 8 := by
  refine ⟨by decide, by decide, by decide⟩

/-- C5 is false on the code: after one processed tick and then `stop()`,
three native objects are still live — the reference-image mask Mat of
line 54, the tick mask Mat of line 113, and the frame Mat that line 99
orphaned — so the external allocation counter is 3, not 0. -/
theorem C5_allocation_counter_nonzero :
    (stop (fireTick exSession { exEnv with frameKp := [] }).state).toOption.map
        (fun s => s.heap.count) = some 3
    ∧ (3 : Nat) ≠ 0 := by
  refine ⟨by decide, by decide⟩


theorem filterMap_all_some {α β : Type _} (l : List α) (f : α → Option β) (g : α → β)
    (h : ∀ a ∈ l, f a = some (g a)) : l.filterMap f = l.map g := by
  induction l with
  | nil => rfl
  | cons a l ih =>
      rw [List.filterMap_cons, h a (List.mem_cons_self a l), List.map_cons,
        ih fun b hb => h b (List.mem_cons_of_mem a hb)]

theorem selectGood_subset (ms : List DMatch) : ∀ m ∈ selectGood ms, m ∈ ms := by
  intro m hm
  have h1 : m ∈ sortMatches ms := List.mem_of_mem_take hm
  exact List.mem_mergeSort.mp h1

theorem buildVis_pairs (objW objH frameRows : Nat) (objKp frameKp : List (ℚ × ℚ))
    (good : List DMatch)
    (hval : ∀ m ∈ good, m.queryIdx < objKp.length ∧ m.trainIdx < frameKp.length) :
    (buildVis objW objH frameRows objKp frameKp good).pairs
      = (List.range (min good.length 30)).map
          (visPairAt objW objH frameRows objKp frameKp good) := by
  unfold buildVis
  dsimp only
  apply filterMap_all_some
  intro i hi
  rw [List.mem_range] at hi
  have h1 : i < good.length := lt_of_lt_of_le hi (min_le_left _ _)
  obtain ⟨hq, ht⟩ := hval (good.get ⟨i, h1⟩) (List.get_mem good i h1)
  simp only [List.get_eq_getElem] at hq ht
  rw [List.getElem?_eq_getElem h1]
  dsimp only
  rw [List.getElem?_eq_getElem hq, List.getElem?_eq_getElem ht]
  dsimp only
  unfold visPairAt
  simp [List.getD_eq_getElem?_getD, List.getElem?_eq_getElem, h1, hq, ht]

theorem visPairAt_emphasized (objW objH frameRows : Nat)
    (objKp frameKp : List (ℚ × ℚ)) (good : List DMatch) (i : Nat) :
    (visPairAt objW objH frameRows objKp frameKp good i).emphasized = decide (i < 10) := rfl

theorem frameRealloc_canvasH (s : SessionState) :
    (frameRealloc s).canvasH = s.canvasH := by
  unfold frameRealloc
  repeat' split
  all_goals rfl

theorem frameRealloc_objKp (s : SessionState) :
    (frameRealloc s).objKp = s.objKp := by
  unfold frameRealloc
  repeat' split
  all_goals rfl

theorem homographyBlock_vis (s : SessionState) (env : TickEnv) (good : List DMatch)
    (H : Hom) (hft : env.findHomographyThrows = false) (hH : env.homography = some H)
    (hpt : env.perspectiveThrows = false) (han : env.annotateThrows = false)
    (hmc : env.matchCanvasPresent = true) (hvt : env.visThrows = false) :
    (homographyBlock s env good).vis
      = some (buildVis s.objW s.objH s.canvasH s.objKp env.frameKp good) := by
  unfold homographyBlock
  simp [hft, hH, hpt, han, hmc, hvt]

/-- C9 amended: when a homography is found and `matchCanvas` is present,
the emitted visualization record annotates the first
`min(goodMatches, 30)` good matches in rank order, emphasized (green)
exactly for ranks below 10 — matches past rank 30 are absent from the
record. -/
theorem C9_visualization (s : SessionState) (env : TickEnv) (H : Hom)
    (hrun : s.isRunning = true)
    (hw : env.videoW ≠ 0) (hh : env.videoH ≠ 0)
    (hp : env.paused = false) (he : env.ended = false)
    (hcap : env.captureThrows = false) (hcvt : env.cvtColorThrows = false)
    (hdet : env.detectThrows = false) (hmat : env.matchThrows = false)
    (hne : env.frameKp.length ≠ 0) (hod : s.objDescRows ≠ 0)
    (hgood : 4 ≤ (selectGood env.rawMatches).length)
    (hft : env.findHomographyThrows = false) (hH : env.homography = some H)
    (hpt : env.perspectiveThrows = false) (han : env.annotateThrows = false)
    (hmc : env.matchCanvasPresent = true) (hvt : env.visThrows = false)
    (hval : ∀ m ∈ selectGood env.rawMatches,
      m.queryIdx < s.objKp.length ∧ m.trainIdx < env.frameKp.length) :
    (process s env).vis
      = some (buildVis s.objW s.objH env.videoH s.objKp env.frameKp
          (selectGood env.rawMatches))
    ∧ (buildVis s.objW s.objH env.videoH s.objKp env.frameKp
          (selectGood env.rawMatches)).pairs
      = (List.range (min (selectGood env.rawMatches).length 30)).map
          (visPairAt s.objW s.objH env.videoH s.objKp env.frameKp
            (selectGood env.rawMatches))
    ∧ (∀ i, (visPairAt s.objW s.objH env.videoH s.objKp env.frameKp
          (selectGood env.rawMatches) i).emphasized = decide (i < 10)) := by
  refine ⟨?_, buildVis_pairs _ _ _ _ _ _ hval, fun i => rfl⟩
  unfold process
  dsimp only
  rw [if_neg (by simp [hrun]), if_neg (by simp [hw, hh, hp, he]), if_neg (by simp [hcap])]
  unfold capturedStage
  dsimp only
  rw [if_neg (by simp [hcvt])]
  unfold extractedStage
  dsimp only
  rw [if_neg (by simp [hdet]),
      if_neg (by simp [hne, frameRealloc_objDescRows, hod]),
      if_neg (by simp [hmat])]
  unfold matchedStage
  dsimp only
  rw [if_pos hgood]
  rw [baseTrace]
  dsimp only
  rw [homographyBlock_vis _ env _ H hft hH hpt han hmc hvt]
  dsimp only
  rw [frameRealloc_objW, frameRealloc_objH, frameRealloc_canvasH, frameRealloc_objKp]

/-- C9 as stated is false: with 62 raw matches the selector keeps 31 good
matches, but the visualization record contains only 30 annotated pairs —
it does not split the good-match list into top 10 plus the remainder,
because everything past rank 30 is absent. -/
theorem C9_counterexample :
    (selectGood exRaw62).length = 31
    ∧ (buildVis 100 400 400 exKp62 exKp62 (selectGood exRaw62)).pairs.length = 30
    ∧ (buildVis 100 400 400 exKp62 exKp62 (selectGood exRaw62)).pairs.length
        ≠ (selectGood exRaw62).length := by
  have hlen : (selectGood exRaw62).length = 31 := by
    rw [selectGood_length]
    decide
  have hval : ∀ m ∈ selectGood exRaw62,
      m.queryIdx < exKp62.length ∧ m.trainIdx < exKp62.length := by
    intro m hm
    have hmem : m ∈ exRaw62 := selectGood_subset exRaw62 m hm
    rw [exRaw62, List.mem_map] at hmem
    obtain ⟨j, hj, rfl⟩ := hmem
    rw [List.mem_range] at hj
    constructor
    · simpa [exKp62] using hj
    · simpa [exKp62] using hj
  have hp : (buildVis 100 400 400 exKp62 exKp62 (selectGood exRaw62)).pairs.length = 30 := by
    rw [buildVis_pairs _ _ _ _ _ _ hval, List.length_map, List.length_range, hlen]
    decide
  exact ⟨hlen, hp, by rw [hp, hlen]; decide⟩

/-- Witness for the amended C9 at a concrete tick with `matchCanvas`
present: the emitted record is the rank-annotated visualization. -/
theorem C9_visualization_witness :
    (process { exSession with animationFrameId := none }
        { exEnv with matchCanvasPresent := true }).vis
      = some (buildVis 100 50 4 exKp exKp
          (selectGood ({ exEnv with matchCanvasPresent := true } : TickEnv).rawMatches)) := by
  have hval : ∀ m ∈ selectGood ({ exEnv with matchCanvasPresent := true } : TickEnv).rawMatches,
      m.queryIdx < exKp.length ∧ m.trainIdx < exKp.length := by
    intro m hm
    have hmem : m ∈ exRaw := selectGood_subset exRaw m hm
    have : m = (⟨1, 3, 3⟩ : DMatch) ∨ m = ⟨3, 1, 1⟩ ∨ m = ⟨5, 2, 2⟩ ∨ m = ⟨7, 0, 0⟩
        ∨ m = ⟨9, 4, 4⟩ := by
      simpa [exRaw] using hmem
    rcases this with rfl | rfl | rfl | rfl | rfl
    all_goals decide
  have h := (C9_visualization { exSession with animationFrameId := none }
    { exEnv with matchCanvasPresent := true } ⟨1, 0, 0, 0, 1, 0, 0, 0, 1⟩
    rfl (by decide) (by decide) rfl rfl rfl rfl rfl rfl (by decide) (by decide)
    (by rw [selectGood_length]; decide) rfl rfl rfl rfl rfl rfl hval).1
  exact h


theorem tickFinish_heap (s : SessionState) (g k d v : Nat) :
    (tickFinish s g k d v).heap = (((s.heap.erase g).erase k).erase d).erase v := by
  unfold tickFinish rafSchedule
  dsimp only
  split
  all_goals rfl

theorem homographyBlock_corners_released (s : SessionState) (env : TickEnv)
    (good : List DMatch) (hpt : env.perspectiveThrows = false)
    (han : env.annotateThrows = false) :
    (∀ i, (homographyBlock s env good).objCornersId = some i →
      ¬ (homographyBlock s env good).state.heap.isLive i)
    ∧ (∀ i, (homographyBlock s env good).sceneCornersId = some i →
      ¬ (homographyBlock s env good).state.heap.isLive i) := by
  unfold homographyBlock
  dsimp only
  split
  · exact ⟨fun i h => Option.noConfusion h, fun i h => Option.noConfusion h⟩
  · split
    · exact ⟨fun i h => Option.noConfusion h, fun i h => Option.noConfusion h⟩
    · rw [if_neg (by simp [hpt]), if_neg (by simp [han])]
      dsimp only
      constructor
      · intro i h
        injection h with h
        subst h
        simp [Heap.erase, Heap.isLive, Finset.mem_erase]
      · intro i h
        injection h with h
        subst h
        simp [Heap.erase, Heap.isLive, Finset.mem_erase]

theorem matchedStage_released (s : SessionState) (env : TickEnv) (g k d m v : Nat) :
    coreReleased (matchedStage s env g k d m v)
    ∧ (env.perspectiveThrows = false → env.annotateThrows = false →
        cornersReleased (matchedStage s env g k d m v)) := by
  unfold matchedStage
  dsimp only
  split
  · constructor
    · refine ⟨?_, ?_, ?_, ?_, ?_, ?_⟩
      all_goals intro i h
      all_goals injection h with h
      all_goals subst h
      all_goals rw [baseTrace]
      all_goals dsimp only
      all_goals rw [tickFinish_heap]
      all_goals simp [Heap.erase, Heap.isLive, Finset.mem_erase]
    · intro hpt han
      constructor
      · intro i h
        rw [baseTrace] at h ⊢
        dsimp only at h ⊢
        have hdead := (homographyBlock_corners_released _ env _ hpt han).1 i h
        rw [tickFinish_heap]
        simp only [Heap.erase, Heap.isLive, Finset.mem_erase] at hdead ⊢
        intro hcontra
        exact hdead hcontra.2.2.2.2.2.2
      · intro i h
        rw [baseTrace] at h ⊢
        dsimp only at h ⊢
        have hdead := (homographyBlock_corners_released _ env _ hpt han).2 i h
        rw [tickFinish_heap]
        simp only [Heap.erase, Heap.isLive, Finset.mem_erase] at hdead ⊢
        intro hcontra
        exact hdead hcontra.2.2.2.2.2.2
  · constructor
    · refine ⟨?_, ?_, ?_, ?_, ?_, ?_⟩
      all_goals intro i h
      all_goals rw [baseTrace] at h ⊢
      all_goals dsimp only at h ⊢
      all_goals try exact Option.noConfusion h
      all_goals injection h with h
      all_goals subst h
      all_goals rw [tickFinish_heap]
      all_goals simp [Heap.erase, Heap.isLive, Finset.mem_erase]
    · intro _ _
      exact ⟨fun i h => Option.noConfusion h, fun i h => Option.noConfusion h⟩

theorem rafSchedule_heap (s : SessionState) : (rafSchedule s).heap = s.heap := rfl

theorem extractedStage_released (s : SessionState) (env : TickEnv) (g : Nat)
    (hdet : env.detectThrows = false) (hmat : env.matchThrows = false) :
    coreReleased (extractedStage s env g)
    ∧ (env.perspectiveThrows = false → env.annotateThrows = false →
        cornersReleased (extractedStage s env g)) := by
  unfold extractedStage
  dsimp only
  rw [if_neg (by simp [hdet])]
  split
  · constructor
    · refine ⟨?_, ?_, ?_, ?_, ?_, ?_⟩
      all_goals intro i h
      all_goals rw [baseTrace] at h ⊢
      all_goals dsimp only at h ⊢
      all_goals try exact Option.noConfusion h
      all_goals injection h with h
      all_goals subst h
      all_goals rw [rafSchedule_heap]
      all_goals dsimp only
      all_goals simp [Heap.erase, Heap.isLive, Finset.mem_erase]
    · intro _ _
      exact ⟨fun i h => Option.noConfusion h, fun i h => Option.noConfusion h⟩
  · rw [if_neg (by simp [hmat])]
    exact matchedStage_released _ env g _ _ _ _

theorem capturedStage_released (s : SessionState) (env : TickEnv)
    (hcvt : env.cvtColorThrows = false)
    (hdet : env.detectThrows = false) (hmat : env.matchThrows = false) :
    coreReleased (capturedStage s env)
    ∧ (env.perspectiveThrows = false → env.annotateThrows = false →
        cornersReleased (capturedStage s env)) := by
  unfold capturedStage
  dsimp only
  rw [if_neg (by simp [hcvt])]
  exact extractedStage_released _ env _ hdet hmat

/-- C10 amended: on every tick that proceeds past frame capture and
completes (no uncaught exception), the grayscale buffer, frame keypoint
vector, frame descriptor matrix, match vector and the two match point
matrices are released before the tick ends, on both the empty-descriptor
early-return path and the full path; the corner point matrices are
released too, provided no caught exception interrupts the homography
block between their creation and the cleanup at lines 302–304. -/
theorem C10_transient_release (s : SessionState) (env : TickEnv)
    (hcvt : env.cvtColorThrows = false)
    (hdet : env.detectThrows = false) (hmat : env.matchThrows = false) :
    coreReleased (process s env)
    ∧ (env.perspectiveThrows = false → env.annotateThrows = false →
        cornersReleased (process s env)) := by
  unfold process
  dsimp only
  split
  · constructor
    · exact ⟨fun i h => Option.noConfusion h, fun i h => Option.noConfusion h,
        fun i h => Option.noConfusion h, fun i h => Option.noConfusion h,
        fun i h => Option.noConfusion h, fun i h => Option.noConfusion h⟩
    · intro _ _
      exact ⟨fun i h => Option.noConfusion h, fun i h => Option.noConfusion h⟩
  · split
    · constructor
      · exact ⟨fun i h => Option.noConfusion h, fun i h => Option.noConfusion h,
          fun i h => Option.noConfusion h, fun i h => Option.noConfusion h,
          fun i h => Option.noConfusion h, fun i h => Option.noConfusion h⟩
      · intro _ _
        exact ⟨fun i h => Option.noConfusion h, fun i h => Option.noConfusion h⟩
    · split
      · constructor
        · exact ⟨fun i h => Option.noConfusion h, fun i h => Option.noConfusion h,
            fun i h => Option.noConfusion h, fun i h => Option.noConfusion h,
            fun i h => Option.noConfusion h, fun i h => Option.noConfusion h⟩
        · intro _ _
          exact ⟨fun i h => Option.noConfusion h, fun i h => Option.noConfusion h⟩
      · exact capturedStage_released _ env hcvt hdet hmat

/-- Witness for the amended C10: on a concrete empty-descriptor tick the
grayscale buffer (id 9) is created and is no longer live at tick end. -/
theorem C10_transient_release_witness :
    (fireTick exSession { exEnv with frameKp := [] }).grayId = some 9
    ∧ ¬ (fireTick exSession { exEnv with frameKp := [] }).state.heap.isLive 9 := by
  constructor
  · decide
  · exact (C10_transient_release { exSession with animationFrameId := none }
      { exEnv with frameKp := [] } rfl rfl rfl).1.1 9 (by decide)

/-- C10 as stated is false for the corner point matrices: on a tick whose
`cv.perspectiveTransform` throws (caught at line 307), the tick completes
as `NotFound`, yet the `objCorners` point matrix (id 17) it created is
still live at tick end — the deletes at lines 302–304 were skipped. -/
theorem C10_counterexample :
    (fireTick exSession { exEnv with perspectiveThrows := true }).outcome = Outcome.notFound
    ∧ (fireTick exSession { exEnv with perspectiveThrows := true }).objCornersId = some 17
    ∧ (fireTick exSession { exEnv with perspectiveThrows := true }).state.heap.isLive 17 := by
  have hgood :
      4 ≤ (selectGood ({ exEnv with perspectiveThrows := true } : TickEnv).rawMatches).length := by
    rw [selectGood_length]
    decide
  show _ ∧ _ ∧ _
  rw [fireTick]
  unfold process
  dsimp only
  rw [if_neg (by decide), if_neg (by decide), if_neg (by decide)]
  unfold capturedStage
  dsimp only
  rw [if_neg (by decide)]
  unfold extractedStage
  dsimp only
  rw [if_neg (by decide), if_neg (by decide), if_neg (by decide)]
  unfold matchedStage
  dsimp only
  rw [if_pos hgood]
  unfold homographyBlock
  dsimp only
  rw [if_neg (by decide)]
  show _ ∧ _ ∧ _
  refine ⟨by decide, by decide, by decide⟩

end SurfDetector
